import Mathlib

/-!
# Verification of the atc-scope-tracker live-tracking pipeline

Shallow embedding of the aircraft-tracking data pipeline found in the
repository's map components: the `part_000` component (the `<script setup>`
block with `calculateDirectionLine`, `validMarkers` inside `getFlights`, and
the store update), and the `Map.vue` variant of `calculateDirectionLine`.

JavaScript field values reaching the pipeline are modelled by `JSNum`
(missing/`undefined`, `NaN`, signed infinity, or a finite number represented
exactly as a rational).  The spherical geometry is modelled over `ℝ`; the
finite-number case is the one every geometric theorem instantiates, and the
non-finite placeholder value never influences a guard (the guards inspect
only truthiness and `isNaN`, exactly as the source does).
-/

namespace ATC

/-- A JavaScript numeric field as it arrives from the upstream JSON:
absent (`undefined`), `NaN`, `±Infinity`, or a finite number. -/
inductive JSNum where
  | missing
  | nan
  | inf (pos : Bool)
  | num (q : ℚ)
deriving DecidableEq, Repr

/-- JavaScript truthiness of a numeric field: `undefined`, `NaN` and `0`
are falsy; every other number (including `±Infinity`) is truthy. -/
def jsTruthy : JSNum → Bool
  | .missing => false
  | .nan => false
  | .inf _ => true
  | .num q => if q = 0 then false else true

/-- JavaScript's global `isNaN` on a numeric field: true for `NaN` and for
`undefined` (which coerces to `NaN`); false for infinities and finite
numbers. -/
def jsIsNaN : JSNum → Bool
  | .missing => true
  | .nan => true
  | .inf _ => false
  | .num _ => false

/-- Whether the field holds a finite number (the spec's "finite number"). -/
def jsFinite : JSNum → Bool
  | .num _ => true
  | _ => false

/-- Real value of a field.  Only finite numbers carry a meaningful value;
the guards of the source never let `NaN`/`undefined` reach arithmetic with
this value, and the non-finite placeholder is never instantiated by a
geometric theorem below (JS arithmetic on `Infinity` would produce `NaN`
coordinates, which the source does not special-case either). -/
noncomputable def jsToReal : JSNum → ℝ
  | .num q => (q : ℝ)
  | _ => 0

/-- One raw aircraft entry of the upstream payload's `ac` array, restricted
to the fields the pipeline reads: `hex`, `lat`, `lon`, `track`, `gs`. -/
structure RawEntry where
  hex : Option String
  lat : JSNum
  lon : JSNum
  track : JSNum
  gs : JSNum
deriving DecidableEq, Repr

/-- Two-argument arctangent, as JavaScript's `Math.atan2(y, x)`. -/
noncomputable def atan2 (y x : ℝ) : ℝ :=
  if 0 < x then Real.arctan (y / x)
  else if x < 0 then
    (if 0 ≤ y then Real.arctan (y / x) + Real.pi else Real.arctan (y / x) - Real.pi)
  else
    (if 0 < y then Real.pi / 2 else if y < 0 then -(Real.pi / 2) else 0)

/-- `const speedInDegreesPerMinute = speed * 0.0003;` -/
noncomputable def speedInDegreesPerMinute (speed : ℝ) : ℝ := speed * 0.0003

/-- `const distanceIn1Minute = speedInDegreesPerMinute / 90;` -/
noncomputable def distanceIn1Minute (speed : ℝ) : ℝ :=
  speedInDegreesPerMinute speed / 90

/-- The arithmetic body of `part_000`'s `calculateDirectionLine`, after the
guards have passed: the spherical direct-position step applied with angular
distance `distanceIn1Minute speed`, returning
`[[lat, lon], [endLat°, endLon°]]`. -/
noncomputable def directionLineMath (lat lon track speed : ℝ) : (ℝ × ℝ) × (ℝ × ℝ) :=
  let d := distanceIn1Minute speed
  let trackRad := track * Real.pi / 180
  let latRad := lat * Real.pi / 180
  let lonRad := lon * Real.pi / 180
  let endLatRad := Real.arcsin
    (Real.sin latRad * Real.cos d + Real.cos latRad * Real.sin d * Real.cos trackRad)
  let endLonRad := lonRad +
    atan2 (Real.sin trackRad * Real.sin d * Real.cos latRad)
      (Real.cos d - Real.sin latRad * Real.sin endLatRad)
  ((lat, lon), (endLatRad * 180 / Real.pi, endLonRad * 180 / Real.pi))

/-- `if (!track || isNaN(track) || !speed || isNaN(speed)) return null;` -/
def headingGuardFails (track speed : JSNum) : Bool :=
  !jsTruthy track || jsIsNaN track || !jsTruthy speed || jsIsNaN speed

/-- `part_000`'s `calculateDirectionLine(lat, lon, track, speed)`.
`mapMounted` models `mapRef.value?.leafletObject` being available:
`if (!map) return null;`. -/
noncomputable def calculateDirectionLine (lat lon track speed : JSNum)
    (mapMounted : Bool) : Option ((ℝ × ℝ) × (ℝ × ℝ)) :=
  if headingGuardFails track speed then none
  else if !mapMounted then none
  else some (directionLineMath (jsToReal lat) (jsToReal lon)
    (jsToReal track) (jsToReal speed))

/-- The filter applied to `data.ac` in `getFlights`:
`marker.lat && marker.lon && !isNaN(marker.lat) && !isNaN(marker.lon)`. -/
def validMarkers (xs : List RawEntry) : List RawEntry :=
  xs.filter fun m => jsTruthy m.lat && jsTruthy m.lon && !jsIsNaN m.lat && !jsIsNaN m.lon

/-- One element of `directionLines.value`: `{ hex: marker.hex, line: linePoints }`. -/
structure DirLine where
  hex : Option String
  line : (ℝ × ℝ) × (ℝ × ℝ)

/-- The `validMarkers.map(...).filter(line => line !== null)` step of
`getFlights` that computes `directionLines.value`. -/
noncomputable def buildDirectionLines (vm : List RawEntry) (mapMounted : Bool) :
    List DirLine :=
  vm.filterMap fun m =>
    if jsTruthy m.track then
      (calculateDirectionLine m.lat m.lon m.track m.gs mapMounted).map
        fun l => ⟨m.hex, l⟩
    else none

/-- The component's reactive state touched by `getFlights`:
`markers.value` and `directionLines.value`. -/
structure Store where
  markers : List RawEntry
  directionLines : List DirLine

/-- Shape of the parsed top-level payload `data`, as `getFlights` can
observe it through `data.ac?.filter(...) || []`:
* `nullish` — `data` is `null`, so `data.ac` itself throws (caught);
* `acAbsent` — `data.ac` is `undefined`/`null`, so the expression yields `[]`;
* `acNonList` — `data.ac` is a non-nullish value without `.filter`
  (a `TypeError` is thrown and caught);
* `acList xs` — `data.ac` is an array of entries. -/
inductive PayloadShape where
  | nullish
  | acAbsent
  | acNonList
  | acList (xs : List RawEntry)

/-- Outcome of `await response.json()`. -/
inductive BodyOutcome where
  | parseError
  | parsed (p : PayloadShape)

/-- Outcome of `await fetch(...)`: rejection, or a response with its
`response.ok` flag and body. -/
inductive FetchOutcome where
  | netError
  | response (ok : Bool) (body : BodyOutcome)

/-- One run of `getFlights`, as a state transformer on the component state,
parameterized by the fetch outcome and the map-mounted flag.  Every `throw`
lands in the surrounding `catch`, which only logs, so a failing run returns
the prior state unchanged and the function always returns normally. -/
noncomputable def getFlights (st : Store) (outcome : FetchOutcome)
    (mapMounted : Bool) : Store :=
  match outcome with
  | .netError => st
  | .response false _ => st
  | .response true .parseError => st
  | .response true (.parsed .nullish) => st
  | .response true (.parsed .acNonList) => st
  | .response true (.parsed .acAbsent) => ⟨[], []⟩
  | .response true (.parsed (.acList xs)) =>
      let vm := validMarkers xs
      ⟨vm, buildDirectionLines vm mapMounted⟩

namespace MapVue

/-- `let size = -0.0002;` (module-level constant of `Map.vue`). -/
noncomputable def size : ℝ := -0.0002

/-- `const startDistance = 0.00001;` inside `Map.vue`'s
`calculateDirectionLine`. -/
noncomputable def startDistance : ℝ := 0.00001

/-- The arithmetic body of `Map.vue`'s `calculateDirectionLine`: the start
point is itself offset from the aircraft position by `startDistance` along
the track, and the end point continues by `distance - size`. -/
noncomputable def lineMath (lat lon track distance : ℝ) : (ℝ × ℝ) × (ℝ × ℝ) :=
  let trackRad := track * Real.pi / 180
  let latRad := lat * Real.pi / 180
  let lonRad := lon * Real.pi / 180
  let startLatRad := Real.arcsin
    (Real.sin latRad * Real.cos startDistance +
      Real.cos latRad * Real.sin startDistance * Real.cos trackRad)
  let startLonRad := lonRad +
    atan2 (Real.sin trackRad * Real.sin startDistance * Real.cos latRad)
      (Real.cos startDistance - Real.sin latRad * Real.sin startLatRad)
  let endLatRad := Real.arcsin
    (Real.sin startLatRad * Real.cos (distance - size) +
      Real.cos startLatRad * Real.sin (distance - size) * Real.cos trackRad)
  let endLonRad := startLonRad +
    atan2 (Real.sin trackRad * Real.sin (distance - size) * Real.cos startLatRad)
      (Real.cos (distance - size) - Real.sin startLatRad * Real.sin endLatRad)
  ((startLatRad * 180 / Real.pi, startLonRad * 180 / Real.pi),
    (endLatRad * 180 / Real.pi, endLonRad * 180 / Real.pi))

/-- `Map.vue`'s `calculateDirectionLine(lat, lon, track, distance = 0.001)`:
guard `if (!track || isNaN(track)) return null;`, no map check, no speed
argument. -/
noncomputable def calculateDirectionLine (lat lon track : JSNum)
    (distance : ℝ := 0.001) : Option ((ℝ × ℝ) × (ℝ × ℝ)) :=
  if !jsTruthy track || jsIsNaN track then none
  else some (lineMath (jsToReal lat) (jsToReal lon) (jsToReal track) distance)

end MapVue

/-! ## Concrete entries used by the claim theorems -/

/-- An entry whose `track` is the finite number `0` (and a positive speed). -/
def trackZeroEntry : RawEntry := ⟨some "c1x", .num 40, .num (-9), .num 0, .num 250⟩

/-- An entry with valid coordinates but no `hex` identifier. -/
def noIdEntry : RawEntry := ⟨none, .num 41, .num (-8), .num 90, .num 250⟩

/-- The spec's scenario-2 entry: `{id:"B2", lat:NaN, lon:-8.0}`. -/
def b2Entry : RawEntry := ⟨some "B2", .nan, .num (-8), .missing, .missing⟩

/-- A fully valid entry (finite coordinates, track and speed). -/
def goodEntry : RawEntry := ⟨some "G1", .num 39, .num (-7), .num 45, .num 300⟩

/-- An entry sitting exactly on the equator (`lat = 0`). -/
def equatorEntry : RawEntry := ⟨some "EQ", .num 0, .num 5, .num 90, .num 100⟩

/-- The spec's scenario-1 entry:
`{id:"A1", lat:41.0, lon:-8.0, track:90, groundSpeed:120}`. -/
def a1Entry : RawEntry := ⟨some "A1", .num 41, .num (-8), .num 90, .num 120⟩

/-- The segment `calculateDirectionLine` produces for the concrete call
`(41, -8, 90, 120)` with the map mounted. -/
noncomputable def sampleSeg : (ℝ × ℝ) × (ℝ × ℝ) :=
  directionLineMath (jsToReal (.num 41)) (jsToReal (.num (-8)))
    (jsToReal (.num 90)) (jsToReal (.num 120))

/-! ## Helper lemmas about the embedded geometry -/

/-- First point of the `part_000` line: the raw input position. -/
theorem directionLineMath_fst (lat lon track speed : ℝ) :
    (directionLineMath lat lon track speed).1 = (lat, lon) := rfl

/-- Explicit form of the second point of the `part_000` line. -/
theorem directionLineMath_snd (lat lon track speed : ℝ) :
    (directionLineMath lat lon track speed).2 =
      (Real.arcsin (Real.sin (lat * Real.pi / 180) * Real.cos (distanceIn1Minute speed) +
          Real.cos (lat * Real.pi / 180) * Real.sin (distanceIn1Minute speed) *
            Real.cos (track * Real.pi / 180)) * 180 / Real.pi,
        (lon * Real.pi / 180 +
          atan2 (Real.sin (track * Real.pi / 180) * Real.sin (distanceIn1Minute speed) *
              Real.cos (lat * Real.pi / 180))
            (Real.cos (distanceIn1Minute speed) - Real.sin (lat * Real.pi / 180) *
              Real.sin (Real.arcsin (Real.sin (lat * Real.pi / 180) *
                Real.cos (distanceIn1Minute speed) +
                Real.cos (lat * Real.pi / 180) * Real.sin (distanceIn1Minute speed) *
                  Real.cos (track * Real.pi / 180))))) * 180 / Real.pi) := rfl

/-- With a positive abscissa and ordinate, `atan2` is positive. -/
theorem atan2_pos_of_pos_of_pos (y x : ℝ) (hy : 0 < y) (hx : 0 < x) :
    0 < atan2 y x := by
  rw [atan2, if_pos hx]
  have h := Real.arctan_strictMono (show (0 : ℝ) < y / x by positivity)
  rwa [Real.arctan_zero] at h

/-- On `(-π/2, π/2)` the two-argument arctangent inverts `(sin, cos)`. -/
theorem atan2_sin_cos (x : ℝ) (h1 : -(Real.pi / 2) < x) (h2 : x < Real.pi / 2) :
    atan2 (Real.sin x) (Real.cos x) = x := by
  have hc : 0 < Real.cos x := Real.cos_pos_of_mem_Ioo ⟨h1, h2⟩
  rw [atan2, if_pos hc, ← Real.tan_eq_sin_div_cos, Real.arctan_tan h1 h2]

/-- Numeric range facts about the latitude `41°` in radians. -/
theorem phi41_facts :
    0 < (41 : ℝ) * Real.pi / 180 ∧ (41 : ℝ) * Real.pi / 180 ≤ 0.7175 ∧
    (41 : ℝ) * Real.pi / 180 < Real.pi / 2 ∧
    0 ≤ Real.sin ((41 : ℝ) * Real.pi / 180) ∧
    0.742 ≤ Real.cos ((41 : ℝ) * Real.pi / 180) := by
  have hpi3 := Real.pi_gt_three
  have hpi315 := Real.pi_lt_d2
  have h1 : 0 < (41 : ℝ) * Real.pi / 180 := by positivity
  have h2 : (41 : ℝ) * Real.pi / 180 ≤ 0.7175 := by nlinarith
  have h3 : (41 : ℝ) * Real.pi / 180 < Real.pi / 2 := by nlinarith
  have h4 : 0 ≤ Real.sin ((41 : ℝ) * Real.pi / 180) :=
    Real.sin_nonneg_of_nonneg_of_le_pi h1.le (by nlinarith)
  have hsq : ((41 : ℝ) * Real.pi / 180) ^ 2 ≤ 0.51480625 := by nlinarith
  have h5 : 0.742 ≤ Real.cos ((41 : ℝ) * Real.pi / 180) := by
    have h := Real.one_sub_sq_div_two_le_cos (x := ((41 : ℝ) * Real.pi / 180))
    linarith
  exact ⟨h1, h2, h3, h4, h5⟩

/-- The projected end latitude of the scenario-1 input, in radians, lies
between `41°·π/180 - 1e-5` and `41°·π/180`. -/
theorem scenario1_endLat_bounds :
    (41 : ℝ) * Real.pi / 180 - 1 / 100000 ≤
      Real.arcsin (Real.sin ((41 : ℝ) * Real.pi / 180) * Real.cos ((1 : ℝ) / 2500)) ∧
    Real.arcsin (Real.sin ((41 : ℝ) * Real.pi / 180) * Real.cos ((1 : ℝ) / 2500)) ≤
      (41 : ℝ) * Real.pi / 180 := by
  obtain ⟨hφpos, hφub, hφhalfpi, hsφ0, hcφ⟩ := phi41_facts
  have hpi3 := Real.pi_gt_three
  have hsφ1 : Real.sin ((41 : ℝ) * Real.pi / 180) ≤ 1 := Real.sin_le_one _
  have hcd1 : Real.cos ((1 : ℝ) / 2500) ≤ 1 := Real.cos_le_one _
  have hcdlb := Real.one_sub_sq_div_two_le_cos (x := ((1 : ℝ) / 2500))
  have hcdpos : 0 < Real.cos ((1 : ℝ) / 2500) := by nlinarith
  have hprodle : Real.sin ((41 : ℝ) * Real.pi / 180) * Real.cos ((1 : ℝ) / 2500) ≤
      Real.sin ((41 : ℝ) * Real.pi / 180) := by nlinarith
  constructor
  · have hεsin := Real.sin_gt_sub_cube (show (0 : ℝ) < 1 / 100000 by norm_num)
      (show (1 : ℝ) / 100000 ≤ 1 by norm_num)
    have hεsinlb : (99 : ℝ) / 10000000 ≤ Real.sin ((1 : ℝ) / 100000) := by nlinarith
    have hεcos : Real.cos ((1 : ℝ) / 100000) ≤ 1 := Real.cos_le_one _
    have hkey : Real.sin ((41 : ℝ) * Real.pi / 180 - 1 / 100000) ≤
        Real.sin ((41 : ℝ) * Real.pi / 180) * Real.cos ((1 : ℝ) / 2500) := by
      rw [Real.sin_sub]
      have hA : Real.cos ((1 : ℝ) / 100000) - Real.cos ((1 : ℝ) / 2500) ≤
          1 / 12500000 := by nlinarith
      have hL : Real.sin ((41 : ℝ) * Real.pi / 180) *
          (Real.cos ((1 : ℝ) / 100000) - Real.cos ((1 : ℝ) / 2500)) ≤ 1 / 12500000 := by
        have h := mul_le_mul_of_nonneg_left hA hsφ0
        nlinarith
      have hR : (7 : ℝ) / 1000000 ≤
          Real.cos ((41 : ℝ) * Real.pi / 180) * Real.sin ((1 : ℝ) / 100000) := by
        have h := mul_le_mul hcφ hεsinlb (by norm_num) (by linarith)
        linarith
      nlinarith
    have h1 : Real.arcsin (Real.sin ((41 : ℝ) * Real.pi / 180 - 1 / 100000)) =
        (41 : ℝ) * Real.pi / 180 - 1 / 100000 :=
      Real.arcsin_sin (by nlinarith) (by nlinarith)
    calc (41 : ℝ) * Real.pi / 180 - 1 / 100000
        = Real.arcsin (Real.sin ((41 : ℝ) * Real.pi / 180 - 1 / 100000)) := h1.symm
      _ ≤ _ := Real.monotone_arcsin hkey
  · calc Real.arcsin (Real.sin ((41 : ℝ) * Real.pi / 180) * Real.cos ((1 : ℝ) / 2500))
        ≤ Real.arcsin (Real.sin ((41 : ℝ) * Real.pi / 180)) :=
          Real.monotone_arcsin hprodle
      _ = (41 : ℝ) * Real.pi / 180 := Real.arcsin_sin (by linarith) hφhalfpi.le

/-- The longitude increment of the scenario-1 input is positive: both
arguments of its `atan2` are positive. -/
theorem scenario1_atan2_pos :
    0 < atan2 (Real.sin ((1 : ℝ) / 2500) * Real.cos ((41 : ℝ) * Real.pi / 180))
      (Real.cos ((1 : ℝ) / 2500) - Real.sin ((41 : ℝ) * Real.pi / 180) *
        Real.sin (Real.arcsin
          (Real.sin ((41 : ℝ) * Real.pi / 180) * Real.cos ((1 : ℝ) / 2500)))) := by
  obtain ⟨hφpos, hφub, hφhalfpi, hsφ0, hcφ⟩ := phi41_facts
  have hpi3 := Real.pi_gt_three
  have hsφ1 : Real.sin ((41 : ℝ) * Real.pi / 180) ≤ 1 := Real.sin_le_one _
  have hcd1 : Real.cos ((1 : ℝ) / 2500) ≤ 1 := Real.cos_le_one _
  have hcdlb := Real.one_sub_sq_div_two_le_cos (x := ((1 : ℝ) / 2500))
  have hcdpos : 0 < Real.cos ((1 : ℝ) / 2500) := by nlinarith
  have hsd_pos : 0 < Real.sin ((1 : ℝ) / 2500) :=
    Real.sin_pos_of_pos_of_lt_pi (by norm_num) (by nlinarith)
  have hprod0 : 0 ≤ Real.sin ((41 : ℝ) * Real.pi / 180) * Real.cos ((1 : ℝ) / 2500) :=
    mul_nonneg hsφ0 hcdpos.le
  have hprod1 : Real.sin ((41 : ℝ) * Real.pi / 180) * Real.cos ((1 : ℝ) / 2500) ≤ 1 := by
    nlinarith
  have hsinE : Real.sin (Real.arcsin
      (Real.sin ((41 : ℝ) * Real.pi / 180) * Real.cos ((1 : ℝ) / 2500))) =
      Real.sin ((41 : ℝ) * Real.pi / 180) * Real.cos ((1 : ℝ) / 2500) :=
    Real.sin_arcsin (by linarith) hprod1
  have hxpos : 0 < Real.cos ((1 : ℝ) / 2500) - Real.sin ((41 : ℝ) * Real.pi / 180) *
      Real.sin (Real.arcsin
        (Real.sin ((41 : ℝ) * Real.pi / 180) * Real.cos ((1 : ℝ) / 2500))) := by
    have hx : Real.cos ((1 : ℝ) / 2500) - Real.sin ((41 : ℝ) * Real.pi / 180) *
        Real.sin (Real.arcsin
          (Real.sin ((41 : ℝ) * Real.pi / 180) * Real.cos ((1 : ℝ) / 2500))) =
        Real.cos ((1 : ℝ) / 2500) * Real.cos ((41 : ℝ) * Real.pi / 180) ^ 2 := by
      rw [hsinE]
      linear_combination (-(Real.cos ((1 : ℝ) / 2500))) *
        Real.sin_sq_add_cos_sq ((41 : ℝ) * Real.pi / 180)
    rw [hx]
    have hcφpos : 0 < Real.cos ((41 : ℝ) * Real.pi / 180) := by linarith
    positivity
  exact atan2_pos_of_pos_of_pos _ _ (mul_pos hsd_pos (by linarith)) hxpos

/-! ## Claim theorems -/

/-- Claim C1, counterexample: the entry `{hex:"c1x", lat:40, lon:-9, track:0,
gs:250}` has both `track` and `groundSpeed` present and finite, yet a
successful refresh with the map mounted produces no heading segment for it
(the claim asserts `track = 0` still yields a segment). -/
theorem c1_track_zero_counterexample :
    (getFlights ⟨[], []⟩ (.response true (.parsed (.acList [trackZeroEntry]))) true).directionLines = [] ∧
    jsFinite trackZeroEntry.track = true ∧ jsFinite trackZeroEntry.gs = true := by
  refine ⟨?_, rfl, rfl⟩
  simp [getFlights, validMarkers, buildDirectionLines, trackZeroEntry, jsTruthy, jsIsNaN]

/-- Claim C1, amended: the projection yields a segment iff `track` and
`groundSpeed` are truthy (present, nonzero — `NaN` and `0` are falsy,
`±Infinity` is truthy) and not `NaN`, and the map widget is mounted; it
returns null exactly otherwise.  In particular `track = 0` or
`groundSpeed = 0` yield null, and `±Infinity` does not. -/
theorem c1_segment_iff_truthy_amended (lat lon track speed : JSNum) (mapMounted : Bool) :
    (calculateDirectionLine lat lon track speed mapMounted).isSome =
      (jsTruthy track && !jsIsNaN track && jsTruthy speed && !jsIsNaN speed && mapMounted) := by
  rw [calculateDirectionLine]
  by_cases hG : headingGuardFails track speed = true
  · rw [if_pos hG]
    simp only [headingGuardFails, Bool.or_eq_true, Bool.not_eq_true'] at hG
    simp only [Option.isSome_none]
    rcases hG with ((h | h) | h) | h <;> rw [h] <;> simp
  · rw [if_neg hG]
    rw [Bool.not_eq_true] at hG
    simp only [headingGuardFails] at hG
    simp only [Bool.or_eq_false_iff, Bool.not_eq_false'] at hG
    obtain ⟨⟨⟨h1, h2⟩, h3⟩, h4⟩ := hG
    cases mapMounted <;> simp [h1, h2, h3, h4]

/-- Claim C2, counterexample: starting from a store holding one marker, a
run whose response parses but whose payload lacks the `ac` list
(`data.ac` is `undefined`, a malformed top-level payload) clears the
markers list instead of leaving the prior snapshot unchanged. -/
theorem c2_missing_ac_clears_store :
    (getFlights ⟨[goodEntry], []⟩ (.response true (.parsed .acAbsent)) true).markers ≠
      (⟨[goodEntry], []⟩ : Store).markers := by
  simp [getFlights, goodEntry]

/-- Claim C2, amended: a run that fails — network rejection, non-2xx
status, JSON parse failure, a `null` payload, or an `ac` field that is
present but not filterable — returns normally and leaves both lists
exactly as they were; but a payload that parses with `ac` absent replaces
both lists with empty lists. -/
theorem c2_failure_preserves_store_amended (st : Store) (mapMounted : Bool) :
    getFlights st .netError mapMounted = st ∧
    (∀ b : BodyOutcome, getFlights st (.response false b) mapMounted = st) ∧
    getFlights st (.response true .parseError) mapMounted = st ∧
    getFlights st (.response true (.parsed .nullish)) mapMounted = st ∧
    getFlights st (.response true (.parsed .acNonList)) mapMounted = st ∧
    getFlights st (.response true (.parsed .acAbsent)) mapMounted = ⟨[], []⟩ :=
  ⟨rfl, fun _ => rfl, rfl, rfl, rfl, rfl⟩

/-- Claim C3, counterexample: an entry with valid coordinates but no `id`
at all is kept by the validation filter and stored in the markers list
(the claim asserts every stored record has an id present). -/
theorem c3_no_id_entry_kept :
    (getFlights ⟨[], []⟩ (.response true (.parsed (.acList [noIdEntry]))) true).markers = [noIdEntry] ∧
    noIdEntry.hex = none := by
  constructor
  · simp [getFlights, validMarkers, noIdEntry, jsTruthy, jsIsNaN]
  · rfl

/-- Claim C3, amended: every record kept by the validation filter has
truthy, non-`NaN` latitude and longitude (so missing, `NaN` and zero
coordinates are dropped, though `id` presence, coordinate finiteness and
`id` uniqueness are not checked); and the scenario-2 snapshot
`[{id:"B2", lat:NaN, lon:-8.0}]` yields an empty record list and an empty
segment list. -/
theorem c3_stored_records_valid_amended :
    (∀ (xs : List RawEntry) (m : RawEntry), m ∈ validMarkers xs →
      jsTruthy m.lat = true ∧ jsIsNaN m.lat = false ∧
      jsTruthy m.lon = true ∧ jsIsNaN m.lon = false) ∧
    (∀ st : Store,
      getFlights st (.response true (.parsed (.acList [b2Entry]))) true = ⟨[], []⟩) := by
  constructor
  · intro xs m hm
    have hp := List.of_mem_filter hm
    simp only [Bool.and_eq_true, Bool.not_eq_true'] at hp
    exact ⟨hp.1.1.1, hp.1.2, hp.1.1.2, hp.2⟩
  · intro st
    simp [getFlights, validMarkers, buildDirectionLines, b2Entry, jsTruthy, jsIsNaN]

/-- Claim C3, witness for the amended theorem: a concrete valid entry kept
by the filter indeed has truthy, non-`NaN` coordinates, and the B2
snapshot yields the empty store. -/
theorem c3_stored_records_valid_witness :
    (jsTruthy goodEntry.lat = true ∧ jsIsNaN goodEntry.lat = false ∧
      jsTruthy goodEntry.lon = true ∧ jsIsNaN goodEntry.lon = false) ∧
    getFlights ⟨[], []⟩ (.response true (.parsed (.acList [b2Entry]))) true = ⟨[], []⟩ :=
  ⟨c3_stored_records_valid_amended.1 [goodEntry] goodEntry (by decide),
    c3_stored_records_valid_amended.2 ⟨[], []⟩⟩

/-- Claim C4, counterexample: at `groundSpeed = 120` knots the angular
distance the code uses is `120 * 0.0003 / 90 = 0.0004`, which is not the
claimed `120 * π / 648000 ≈ 5.8178e-4`. -/
theorem c4_conversion_constant_counterexample :
    distanceIn1Minute 120 ≠ 120 * Real.pi / 648000 := by
  intro h
  have h3 := Real.pi_gt_three
  rw [distanceIn1Minute, speedInDegreesPerMinute] at h
  norm_num at h
  nlinarith

/-- Claim C4, amended: the angular distance used by the projection is
`speed * 0.0003 / 90 = speed / 300000` radians (about 69% of the exact
one-minute-of-arc-per-knot conversion `speed * π / 648000`). -/
theorem c4_angular_distance_amended (speed : ℝ) :
    distanceIn1Minute speed = speed / 300000 := by
  rw [distanceIn1Minute, speedInDegreesPerMinute]
  norm_num
  ring

/-- Claim C5, confirmed (for a refresh with the map widget mounted): the raw
snapshot `[{hex:"A1", lat:41, lon:-8, track:90, gs:120}]` produces exactly
one heading segment; it starts at `(41, -8)`, its end longitude is strictly
greater than `-8`, and its end latitude is within `1/1000` of `41`. -/
theorem c5_scenario_east_track (st : Store) :
    (getFlights st (.response true (.parsed (.acList [a1Entry]))) true).directionLines =
      [⟨some "A1", directionLineMath 41 (-8) 90 120⟩] ∧
    (directionLineMath 41 (-8) 90 120).1 = ((41 : ℝ), (-8 : ℝ)) ∧
    (-8 : ℝ) < (directionLineMath 41 (-8) 90 120).2.2 ∧
    |(directionLineMath 41 (-8) 90 120).2.1 - 41| < 1 / 1000 := by
  have hd : distanceIn1Minute 120 = (1 : ℝ) / 2500 := by
    rw [distanceIn1Minute, speedInDegreesPerMinute]; norm_num
  have h90 : (90 : ℝ) * Real.pi / 180 = Real.pi / 2 := by ring
  have hsnd := directionLineMath_snd 41 (-8) 90 120
  rw [hd, h90, Real.cos_pi_div_two, Real.sin_pi_div_two] at hsnd
  rw [show Real.sin ((41:ℝ) * Real.pi / 180) * Real.cos ((1:ℝ)/2500) +
      Real.cos ((41:ℝ) * Real.pi / 180) * Real.sin ((1:ℝ)/2500) * 0 =
      Real.sin ((41:ℝ) * Real.pi / 180) * Real.cos ((1:ℝ)/2500) from by ring] at hsnd
  rw [show (1:ℝ) * Real.sin ((1:ℝ)/2500) * Real.cos ((41:ℝ) * Real.pi / 180) =
      Real.sin ((1:ℝ)/2500) * Real.cos ((41:ℝ) * Real.pi / 180) from by ring] at hsnd
  have hpi3 := Real.pi_gt_three
  have hpipos := Real.pi_pos
  refine ⟨?_, directionLineMath_fst 41 (-8) 90 120, ?_, ?_⟩
  · simp [getFlights, validMarkers, buildDirectionLines, calculateDirectionLine,
      headingGuardFails, a1Entry, jsTruthy, jsIsNaN, jsToReal]
  · -- end longitude strictly greater than the start longitude
    have h22 : (directionLineMath 41 (-8) 90 120).2.2 =
        ((-8:ℝ) * Real.pi / 180 +
          atan2 (Real.sin ((1:ℝ)/2500) * Real.cos ((41:ℝ) * Real.pi / 180))
            (Real.cos ((1:ℝ)/2500) - Real.sin ((41:ℝ) * Real.pi / 180) *
              Real.sin (Real.arcsin (Real.sin ((41:ℝ) * Real.pi / 180) *
                Real.cos ((1:ℝ)/2500))))) * 180 / Real.pi := by
      rw [hsnd]
    have hatan := scenario1_atan2_pos
    rw [h22]
    rw [show ((-8:ℝ) * Real.pi / 180 +
        atan2 (Real.sin ((1:ℝ)/2500) * Real.cos ((41:ℝ) * Real.pi / 180))
          (Real.cos ((1:ℝ)/2500) - Real.sin ((41:ℝ) * Real.pi / 180) *
            Real.sin (Real.arcsin (Real.sin ((41:ℝ) * Real.pi / 180) *
              Real.cos ((1:ℝ)/2500))))) * 180 / Real.pi =
        -8 + atan2 (Real.sin ((1:ℝ)/2500) * Real.cos ((41:ℝ) * Real.pi / 180))
          (Real.cos ((1:ℝ)/2500) - Real.sin ((41:ℝ) * Real.pi / 180) *
            Real.sin (Real.arcsin (Real.sin ((41:ℝ) * Real.pi / 180) *
              Real.cos ((1:ℝ)/2500)))) * 180 / Real.pi from by
      field_simp]
    have hpos : 0 < atan2 (Real.sin ((1:ℝ)/2500) * Real.cos ((41:ℝ) * Real.pi / 180))
        (Real.cos ((1:ℝ)/2500) - Real.sin ((41:ℝ) * Real.pi / 180) *
          Real.sin (Real.arcsin (Real.sin ((41:ℝ) * Real.pi / 180) *
            Real.cos ((1:ℝ)/2500)))) * 180 / Real.pi := by positivity
    linarith
  · -- end latitude within 1/1000 of 41
    have h21 : (directionLineMath 41 (-8) 90 120).2.1 =
        Real.arcsin (Real.sin ((41:ℝ) * Real.pi / 180) *
          Real.cos ((1:ℝ)/2500)) * 180 / Real.pi := by
      rw [hsnd]
    obtain ⟨hElb, hEub⟩ := scenario1_endLat_bounds
    rw [h21, abs_lt]
    have hphi41 : (41:ℝ) * Real.pi / 180 * 180 / Real.pi = 41 := by
      field_simp
    have hup : Real.arcsin (Real.sin ((41:ℝ) * Real.pi / 180) *
        Real.cos ((1:ℝ)/2500)) * 180 / Real.pi ≤ 41 := by
      calc Real.arcsin (Real.sin ((41:ℝ) * Real.pi / 180) *
          Real.cos ((1:ℝ)/2500)) * 180 / Real.pi
          ≤ (41:ℝ) * Real.pi / 180 * 180 / Real.pi := by gcongr
        _ = 41 := hphi41
    have hlo : 41 - 1/1000 < Real.arcsin (Real.sin ((41:ℝ) * Real.pi / 180) *
        Real.cos ((1:ℝ)/2500)) * 180 / Real.pi := by
      have h1 : ((41:ℝ) * Real.pi / 180 - 1/100000) * 180 / Real.pi ≤
          Real.arcsin (Real.sin ((41:ℝ) * Real.pi / 180) *
            Real.cos ((1:ℝ)/2500)) * 180 / Real.pi := by gcongr
      have h2 : ((41:ℝ) * Real.pi / 180 - 1/100000) * 180 / Real.pi =
          41 - (1/100000 : ℝ) * 180 / Real.pi := by
        field_simp; ring
      have h3 : (1/100000 : ℝ) * 180 / Real.pi < 1/1000 := by
        rw [div_lt_iff₀ hpipos]; nlinarith
      linarith
    constructor <;> linarith

/-- Claim C6, counterexample: with `groundSpeed = 0` (and a finite position
and track, map mounted) the projection returns null rather than a
degenerate segment. -/
theorem c6_zero_speed_counterexample :
    calculateDirectionLine (.num 37) (.num 7) (.num 180) (.num 0) true = none := by
  simp [calculateDirectionLine, headingGuardFails, jsTruthy, jsIsNaN]

/-- Claim C6, amended: with `groundSpeed = 0` the projection does not throw
— it is total — but it returns null (zero is falsy, so it is treated the
same as missing heading data), for every position, track and map state. -/
theorem c6_zero_speed_amended (lat lon track : JSNum) (mapMounted : Bool) :
    calculateDirectionLine lat lon track (.num 0) mapMounted = none := by
  simp [calculateDirectionLine, headingGuardFails, jsTruthy]

/-- Claim C7, counterexample: the `Map.vue` variant of the projection, called
at position `(0, 0)` with `track = 90` (default line length), returns a
segment whose first point is not the aircraft position: the start is offset
along the track by `startDistance` radians, giving a start longitude of
`startDistance * 180 / π ≈ 5.7e-4` degrees instead of `0`. -/
theorem c7_mapvue_offset_counterexample :
    MapVue.calculateDirectionLine (.num 0) (.num 0) (.num 90) =
      some (MapVue.lineMath 0 0 90 0.001) ∧
    (MapVue.lineMath 0 0 90 0.001).1 ≠ ((0 : ℝ), (0 : ℝ)) := by
  constructor
  · simp [MapVue.calculateDirectionLine, jsTruthy, jsIsNaN, jsToReal]
  · have hpi := Real.pi_gt_three
    have hsd : MapVue.startDistance = 1 / 100000 := by
      rw [MapVue.startDistance]; norm_num
    have hsd1 : -(Real.pi / 2) < MapVue.startDistance := by rw [hsd]; linarith
    have hsd2 : MapVue.startDistance < Real.pi / 2 := by rw [hsd]; linarith
    have h0 : (0 : ℝ) * Real.pi / 180 = 0 := by ring
    have h90 : (90 : ℝ) * Real.pi / 180 = Real.pi / 2 := by ring
    have hstart : (MapVue.lineMath 0 0 90 0.001).1 =
        (0, MapVue.startDistance * 180 / Real.pi) := by
      show ((Real.arcsin (Real.sin ((0:ℝ) * Real.pi / 180) * Real.cos MapVue.startDistance +
          Real.cos ((0:ℝ) * Real.pi / 180) * Real.sin MapVue.startDistance *
            Real.cos ((90:ℝ) * Real.pi / 180)) * 180 / Real.pi,
        ((0:ℝ) * Real.pi / 180 +
          atan2 (Real.sin ((90:ℝ) * Real.pi / 180) * Real.sin MapVue.startDistance *
              Real.cos ((0:ℝ) * Real.pi / 180))
            (Real.cos MapVue.startDistance - Real.sin ((0:ℝ) * Real.pi / 180) *
              Real.sin (Real.arcsin (Real.sin ((0:ℝ) * Real.pi / 180) *
                Real.cos MapVue.startDistance +
                Real.cos ((0:ℝ) * Real.pi / 180) * Real.sin MapVue.startDistance *
                  Real.cos ((90:ℝ) * Real.pi / 180))))) * 180 / Real.pi) :
          ℝ × ℝ) = (0, MapVue.startDistance * 180 / Real.pi)
      rw [h0, h90, Real.sin_zero, Real.cos_zero, Real.cos_pi_div_two, Real.sin_pi_div_two]
      norm_num [Real.arcsin_zero]
      rw [atan2_sin_cos MapVue.startDistance hsd1 hsd2]
    rw [hstart]
    intro hcontra
    have h2 := congrArg Prod.snd hcontra
    simp only at h2
    rw [hsd] at h2
    have hpipos := Real.pi_pos
    have : (1 : ℝ) / 100000 * 180 / Real.pi > 0 := by positivity
    linarith [this.ne' h2]

/-- Claim C7, amended: every segment returned by `part_000`'s
`calculateDirectionLine` starts exactly at the aircraft's current position,
with no positional offset; the `Map.vue` variant instead offsets its start
point along the track by `startDistance = 1e-5` radians, so its first point
can differ from the position. -/
theorem c7_start_at_position_amended (lat lon track speed : JSNum)
    (mapMounted : Bool) (seg : (ℝ × ℝ) × (ℝ × ℝ))
    (h : calculateDirectionLine lat lon track speed mapMounted = some seg) :
    seg.1 = (jsToReal lat, jsToReal lon) := by
  rw [calculateDirectionLine] at h
  by_cases hG : headingGuardFails track speed = true
  · rw [if_pos hG] at h
    exact absurd h (by simp)
  · rw [if_neg hG] at h
    cases mapMounted
    · exact absurd h (by simp)
    · simp only [Bool.not_true, Bool.false_eq_true, if_false, Option.some.injEq] at h
      rw [← h, directionLineMath_fst]

/-- Claim C7, witness: the concrete call `(41, -8, 90, 120)` with the map
mounted returns a segment, and that segment starts at the input position. -/
theorem c7_start_at_position_witness :
    calculateDirectionLine (.num 41) (.num (-8)) (.num 90) (.num 120) true =
      some sampleSeg ∧
    sampleSeg.1 = (jsToReal (.num 41), jsToReal (.num (-8))) := by
  have h : calculateDirectionLine (.num 41) (.num (-8)) (.num 90) (.num 120) true =
      some sampleSeg := by
    simp [calculateDirectionLine, headingGuardFails, jsTruthy, jsIsNaN, sampleSeg]
  exact ⟨h, c7_start_at_position_amended _ _ _ _ _ _ h⟩

/-- Claim C8, confirmed: the validation filter is idempotent, its output is
an order-preserving subsequence of its input, and its output length never
exceeds its input length. -/
theorem c8_validator_idempotent_sublist (xs : List RawEntry) :
    validMarkers (validMarkers xs) = validMarkers xs ∧
    (validMarkers xs).Sublist xs ∧
    (validMarkers xs).length ≤ xs.length := by
  refine ⟨?_, List.filter_sublist xs, List.length_filter_le _ xs⟩
  simp [validMarkers, List.filter_filter]

/-- Claim C9, counterexample: two calls to `calculateDirectionLine` with
identical `(lat, lon, track, speed)` return different results depending on
whether the map widget is mounted — a segment when mounted, null when not. -/
theorem c9_map_dependence_counterexample :
    calculateDirectionLine (.num 41) (.num (-8)) (.num 90) (.num 120) true ≠
      calculateDirectionLine (.num 41) (.num (-8)) (.num 90) (.num 120) false := by
  simp [calculateDirectionLine, headingGuardFails, jsTruthy, jsIsNaN]

/-- Claim C9, amended: the projection is a deterministic function of its
four arguments and the map-mounted state, but it is not independent of the
map widget: with the widget unmounted it returns null for every input. -/
theorem c9_unmounted_null_amended (lat lon track speed : JSNum) :
    calculateDirectionLine lat lon track speed false = none := by
  simp [calculateDirectionLine]

/-- Claim C10, confirmed: an entry whose latitude or longitude is exactly
the finite number `0` is dropped by the validation filter and never
appears in the markers list (zero is falsy in the filter's truthiness
test), regardless of its other fields. -/
theorem c10_zero_coordinate_dropped (xs : List RawEntry) (e : RawEntry)
    (hlat : e.lat = .num 0 ∨ e.lon = .num 0) : e ∉ validMarkers xs := by
  intro hmem
  have hp := List.of_mem_filter hmem
  rcases hlat with h | h <;> rw [h] at hp <;> simp [jsTruthy] at hp

/-- Claim C10, witness: the concrete equator entry (`lat = 0`, valid id,
finite coordinates) is absent from the validated output of the snapshot
containing it. -/
theorem c10_zero_coordinate_witness :
    equatorEntry.lat = .num 0 ∧ equatorEntry ∉ validMarkers [equatorEntry] :=
  ⟨rfl, c10_zero_coordinate_dropped [equatorEntry] equatorEntry (Or.inl rfl)⟩

end ATC
